import Mathlib

set_option maxRecDepth 20000

/-!
Verification development for the college feature-engineering repository.

The source is a small pandas pipeline:
* `src/feature_engineering.py` — a module-level script: load, check that the
  three rate columns are strictly positive (raise ValueError otherwise),
  derive avg_graduation_rate, graduation_rate_improvement and
  selectivity_score, round them (3, 3, 2 decimals), check for nulls (raise
  ValueError, with a dead print after the raise), then save and print.
* `src/feature_engineering_class.py` — class FeatureEngineer: four create
  methods (the three above plus cohort_size), round_features (3, 3, 2, 2),
  engineer_all_features chaining them, and save_engineered_data.
* `src/main.py` — builds a FeatureEngineer, runs engineer_all_features,
  then save_engineered_data; no validation anywhere on this path.
* `src/visualization_class.py` — CollegeVisualizer; its preprocessing step
  rewrites the application_volume column by dropping "," and casting to int.

Modelling conventions (shallow embedding):
* A pandas cell is a `PVal`: exact rationals stand in for floats, with the
  IEEE special values `inf`, `ninf` and `nan` kept explicit (pandas nulls in
  numeric columns are NaN, so `nan` doubles as the null).  Text cells
  (object dtype) are `str`.  An arithmetic operation touching a text cell is
  a pandas TypeError; at the value level this is the `err` marker, and a
  column operation whose result contains `err` fails (returns `none`).
* Rounding is round-half-to-even on exact rationals, the documented
  idealization of numpy float rounding.
* A DataFrame is an ordered association list of named columns; column
  assignment replaces an existing column in place and appends a new one at
  the end, exactly as pandas does.
* Exceptions are `Option`/`Except`; observable effects of the script and of
  main (prints, file writes) are an explicit event trace, with sequencing
  that discards the continuation after a raise, as Python does.
-/

/-- Cell value of a pandas column, as described in the module docstring. -/
inductive PVal where
  | num (q : ℚ)
  | inf
  | ninf
  | nan
  | str (s : String)
  | err
deriving DecidableEq

/-- True for cells on which pandas float arithmetic is not defined: text
cells and the propagated type-error marker. -/
def PVal.isBad : PVal → Bool
  | .str _ => true
  | .err => true
  | _ => false

/-- True exactly for the type-error marker. -/
def PVal.isErr : PVal → Bool
  | .err => true
  | _ => false

/-- Null test: pandas isnull on a float column detects NaN (and only NaN:
infinities are not null). -/
def PVal.isNull : PVal → Bool
  | .nan => true
  | _ => false

/-- Elementwise addition with pandas float semantics. -/
def padd : PVal → PVal → PVal
  | .str _, _ => .err
  | .err, _ => .err
  | _, .str _ => .err
  | _, .err => .err
  | .nan, _ => .nan
  | _, .nan => .nan
  | .num a, .num b => .num (a + b)
  | .num _, .inf => .inf
  | .num _, .ninf => .ninf
  | .inf, .num _ => .inf
  | .ninf, .num _ => .ninf
  | .inf, .inf => .inf
  | .inf, .ninf => .nan
  | .ninf, .inf => .nan
  | .ninf, .ninf => .ninf

/-- Elementwise subtraction with pandas float semantics. -/
def psub : PVal → PVal → PVal
  | .str _, _ => .err
  | .err, _ => .err
  | _, .str _ => .err
  | _, .err => .err
  | .nan, _ => .nan
  | _, .nan => .nan
  | .num a, .num b => .num (a - b)
  | .num _, .inf => .ninf
  | .num _, .ninf => .inf
  | .inf, .num _ => .inf
  | .ninf, .num _ => .ninf
  | .inf, .inf => .nan
  | .inf, .ninf => .inf
  | .ninf, .inf => .ninf
  | .ninf, .ninf => .nan

/-- Elementwise multiplication with pandas float semantics. -/
def pmul : PVal → PVal → PVal
  | .str _, _ => .err
  | .err, _ => .err
  | _, .str _ => .err
  | _, .err => .err
  | .nan, _ => .nan
  | _, .nan => .nan
  | .num a, .num b => .num (a * b)
  | .num a, .inf => if 0 < a then .inf else if a < 0 then .ninf else .nan
  | .num a, .ninf => if 0 < a then .ninf else if a < 0 then .inf else .nan
  | .inf, .num b => if 0 < b then .inf else if b < 0 then .ninf else .nan
  | .ninf, .num b => if 0 < b then .ninf else if b < 0 then .inf else .nan
  | .inf, .inf => .inf
  | .inf, .ninf => .ninf
  | .ninf, .inf => .ninf
  | .ninf, .ninf => .inf

/-- Elementwise division with pandas float semantics; division of a positive
float by zero is infinity, of zero by zero is NaN. -/
def pdiv : PVal → PVal → PVal
  | .str _, _ => .err
  | .err, _ => .err
  | _, .str _ => .err
  | _, .err => .err
  | .nan, _ => .nan
  | _, .nan => .nan
  | .num a, .num b =>
      if b = 0 then (if 0 < a then .inf else if a < 0 then .ninf else .nan)
      else .num (a / b)
  | .num _, .inf => .num 0
  | .num _, .ninf => .num 0
  | .inf, .num b => if b < 0 then .ninf else .inf
  | .ninf, .num b => if b < 0 then .inf else .ninf
  | .inf, .inf => .nan
  | .inf, .ninf => .nan
  | .ninf, .inf => .nan
  | .ninf, .ninf => .nan

/-- Round a rational to the nearest integer, ties to even. -/
def roundHalfEven (q : ℚ) : ℤ :=
  let f : ℤ := ⌊q⌋
  let r : ℚ := q - f
  if r < 1 / 2 then f
  else if 1 / 2 < r then f + 1
  else if f % 2 = 0 then f else f + 1

/-- Round a rational to `n` decimal places, ties to even; the model of the
pandas Series.round method. -/
def roundTo (n : ℕ) (q : ℚ) : ℚ :=
  ((roundHalfEven (q * (10 : ℚ) ^ n) : ℤ) : ℚ) / (10 : ℚ) ^ n

/-- Elementwise rounding with pandas semantics: specials pass through,
rounding a text cell is a type error. -/
def pround (n : ℕ) : PVal → PVal
  | .num q => .num (roundTo n q)
  | .inf => .inf
  | .ninf => .ninf
  | .nan => .nan
  | .str _ => .err
  | .err => .err

/-- A dataframe: ordered list of named columns.  Pandas column access is by
name; assignment replaces in place or appends at the end. -/
abbrev DataFrame := List (String × List PVal)

/-- Column lookup by name (first occurrence), `none` models a KeyError. -/
def getCol : DataFrame → String → Option (List PVal)
  | [], _ => none
  | (m, c) :: rest, n => if m = n then some c else getCol rest n

/-- Column assignment: replace the (first) existing column of that name in
place, otherwise append the new column at the end, as pandas does. -/
def setCol : DataFrame → String → List PVal → DataFrame
  | [], n, v => [(n, v)]
  | (m, c) :: rest, n, v =>
      if m = n then (m, v) :: rest else (m, c) :: setCol rest n v

/-- The column names of a dataframe, in order; this is also the header row
that to_csv writes. -/
def colNames (df : DataFrame) : List String := df.map Prod.fst

/-- Cell access: value of column `n` at row `i`. -/
def cell (df : DataFrame) (n : String) (i : ℕ) : Option PVal :=
  (getCol df n).bind (fun c => c.get? i)

/-- Model of DataFrame.to_csv with index=False: the header row of column
names followed by the data rows. -/
def to_csv (df : DataFrame) : List String × List (List PVal) :=
  (colNames df, List.transpose (df.map Prod.snd))

/-- True when the column contains no text cell and no type-error marker, so
that pandas float arithmetic on it is defined. -/
def okCol (l : List PVal) : Bool := l.all (fun v => !v.isBad)

/-- Guard on the result of a column operation: pandas raises a TypeError
(here: `none`) when the elementwise operation produced the error marker. -/
def colCheck (l : List PVal) : Option (List PVal) :=
  if l.any PVal.isErr then none else some l

/-- Model of FeatureEngineer.create_average_graduation_rate: assigns
avg_graduation_rate = (graduate_rate_4yr + graduate_rate_6yr) / 2. -/
def create_average_graduation_rate (df : DataFrame) : Option DataFrame := do
  let c4 ← getCol df "graduate_rate_4yr"
  let c6 ← getCol df "graduate_rate_6yr"
  let s ← colCheck (List.zipWith padd c4 c6)
  let avg ← colCheck (s.map (fun v => pdiv v (PVal.num 2)))
  pure (setCol df "avg_graduation_rate" avg)

/-- Model of FeatureEngineer.create_graduation_rate_improvement: assigns
graduation_rate_improvement = graduate_rate_6yr - graduate_rate_4yr. -/
def create_graduation_rate_improvement (df : DataFrame) : Option DataFrame := do
  let c4 ← getCol df "graduate_rate_4yr"
  let c6 ← getCol df "graduate_rate_6yr"
  let imp ← colCheck (List.zipWith psub c6 c4)
  pure (setCol df "graduation_rate_improvement" imp)

/-- Model of FeatureEngineer.create_selectivity_score: assigns
selectivity_score = 1 / admission_rate. -/
def create_selectivity_score (df : DataFrame) : Option DataFrame := do
  let ca ← getCol df "admission_rate"
  let sel ← colCheck (ca.map (fun v => pdiv (PVal.num 1) v))
  pure (setCol df "selectivity_score" sel)

/-- Model of FeatureEngineer.create_cohort_size: assigns
cohort_size = application_volume * admission_rate. -/
def create_cohort_size (df : DataFrame) : Option DataFrame := do
  let va ← getCol df "application_volume"
  let ca ← getCol df "admission_rate"
  let coh ← colCheck (List.zipWith pmul va ca)
  pure (setCol df "cohort_size" coh)

/-- Model of FeatureEngineer.round_features: rounds the four derived columns
in place, avg and improvement to 3 decimals, selectivity and cohort to 2. -/
def round_features (df : DataFrame) : Option DataFrame := do
  let a ← getCol df "avg_graduation_rate"
  let a2 ← colCheck (a.map (pround 3))
  let df1 := setCol df "avg_graduation_rate" a2
  let b ← getCol df1 "graduation_rate_improvement"
  let b2 ← colCheck (b.map (pround 3))
  let df2 := setCol df1 "graduation_rate_improvement" b2
  let c ← getCol df2 "selectivity_score"
  let c2 ← colCheck (c.map (pround 2))
  let df3 := setCol df2 "selectivity_score" c2
  let d ← getCol df3 "cohort_size"
  let d2 ← colCheck (d.map (pround 2))
  pure (setCol df3 "cohort_size" d2)

/-- Model of FeatureEngineer.engineer_all_features: the four create methods
in their fixed order, then round_features. -/
def engineer_all_features (df : DataFrame) : Option DataFrame := do
  let d1 ← create_average_graduation_rate df
  let d2 ← create_graduation_rate_improvement d1
  let d3 ← create_selectivity_score d2
  let d4 ← create_cohort_size d3
  round_features d4

/-- Model of the derivation lines of the module-level script
feature_engineering.py (lines 16 to 23): the same three column assignments
as the corresponding class methods, without cohort_size. -/
def scriptDeriveCols (df : DataFrame) : Option DataFrame := do
  let c4 ← getCol df "graduate_rate_4yr"
  let c6 ← getCol df "graduate_rate_6yr"
  let s ← colCheck (List.zipWith padd c4 c6)
  let avg ← colCheck (s.map (fun v => pdiv v (PVal.num 2)))
  let df1 := setCol df "avg_graduation_rate" avg
  let c4b ← getCol df1 "graduate_rate_4yr"
  let c6b ← getCol df1 "graduate_rate_6yr"
  let imp ← colCheck (List.zipWith psub c6b c4b)
  let df2 := setCol df1 "graduation_rate_improvement" imp
  let ca ← getCol df2 "admission_rate"
  let sel ← colCheck (ca.map (fun v => pdiv (PVal.num 1) v))
  pure (setCol df2 "selectivity_score" sel)

/-- Model of the rounding lines of the module-level script (lines 26 to 28):
round the three derived columns in place, 3, 3 and 2 decimals. -/
def scriptRound (df : DataFrame) : Option DataFrame := do
  let a ← getCol df "avg_graduation_rate"
  let a2 ← colCheck (a.map (pround 3))
  let df4 := setCol df "avg_graduation_rate" a2
  let b ← getCol df4 "graduation_rate_improvement"
  let b2 ← colCheck (b.map (pround 3))
  let df5 := setCol df4 "graduation_rate_improvement" b2
  let c ← getCol df5 "selectivity_score"
  let c2 ← colCheck (c.map (pround 2))
  pure (setCol df5 "selectivity_score" c2)

/-- The derivation and rounding portion of the module-level script. -/
def scriptDerive (df : DataFrame) : Option DataFrame :=
  (scriptDeriveCols df).bind scriptRound

/-- Cell test of the script input check df[cols] <= 0: NaN compares false,
negative infinity compares true. -/
def pNonPos : PVal → Bool
  | .num q => decide (q ≤ 0)
  | .ninf => true
  | _ => false

/-- Model of the script input check (feature_engineering.py lines 13 to 14):
whether any cell of the three rate columns is <= 0.  `none` models the
KeyError or TypeError pandas raises when a column is absent or textual. -/
def checkRates (df : DataFrame) : Option Bool := do
  let a ← getCol df "graduate_rate_4yr"
  let b ← getCol df "graduate_rate_6yr"
  let c ← getCol df "admission_rate"
  if okCol a && okCol b && okCol c then
    pure (a.any pNonPos || b.any pNonPos || c.any pNonPos)
  else none

/-- Whether any cell of any column is null, the model of
df.isnull().any().any(). -/
def anyNull (df : DataFrame) : Bool :=
  df.any (fun p => p.2.any PVal.isNull)

/-- Per-column null counts, the model of df.isnull().sum(), the argument of
the dead diagnostic print in the script. -/
def nullCounts (df : DataFrame) : List (String × ℕ) :=
  df.map (fun p => (p.1, p.2.countP (fun v => PVal.isNull v)))

/-- Errors raised by the pipelines: the two ValueError raises of the script
and the TypeError or KeyError of a failing pandas operation. -/
inductive Err where
  | negativeRates
  | missingValues
  | typeErr
deriving DecidableEq

/-- Observable effects: a print to stdout, a to_csv file write, or the dead
diagnostic print of the null-count summary. -/
inductive Event where
  | printed (s : String)
  | savedFile (path : String) (df : DataFrame)
  | printedNullSummary (counts : List (String × ℕ))
deriving DecidableEq

/-- A run: the trace of effects so far together with the outcome. -/
abbrev Run (α : Type) := List Event × Except Err α

/-- Pure step of a run: no effect, normal result. -/
def rPure {α : Type} (a : α) : Run α := ([], Except.ok a)

/-- A raise: no effect, abrupt termination. -/
def rThrow {α : Type} (e : Err) : Run α := ([], Except.error e)

/-- Sequencing: a raise discards the continuation, exactly as in Python,
while effects already performed remain on the trace. -/
def rBind {α β : Type} (x : Run α) (f : α → Run β) : Run β :=
  match x with
  | (evs, Except.error e) => (evs, Except.error e)
  | (evs, Except.ok a) => ((evs ++ (f a).1, (f a).2) : Run β)

/-- Emit one observable effect. -/
def rEmit (ev : Event) : Run Unit := ([ev], Except.ok ())

/-- Lift a fallible pandas operation into a run; its failure is a raised
TypeError or KeyError. -/
def rOfOption {α : Type} (o : Option α) : Run α :=
  match o with
  | none => rThrow Err.typeErr
  | some a => rPure a

/-- True exactly for file-write events. -/
def isSave : Event → Bool
  | .savedFile _ _ => true
  | _ => false

/-- The raised error of a run, when it terminated abruptly. -/
def runErr {α : Type} (r : Run α) : Option Err :=
  match r.2 with
  | Except.error e => some e
  | Except.ok _ => none

/-- The normal result of a run, when it terminated normally. -/
def runOk {α : Type} (r : Run α) : Option α :=
  match r.2 with
  | Except.error _ => none
  | Except.ok a => some a

/-- Model of the module-level script feature_engineering.py, applied to the
loaded dataframe: rate check with raise, derivation and rounding, null check
with raise followed (unreachably) by the diagnostic print, then the save and
the final print. -/
def script_run (df : DataFrame) : Run DataFrame :=
  rBind (rOfOption (checkRates df)) (fun bad =>
  rBind (if bad then rThrow Err.negativeRates else rPure ()) (fun _ =>
  rBind (rOfOption (scriptDerive df)) (fun d =>
  rBind (if anyNull d then
           rBind ((rThrow Err.missingValues : Run Unit)) (fun _ =>
             rEmit (Event.printedNullSummary (nullCounts d)))
         else rPure ()) (fun _ =>
  rBind (rEmit (Event.savedFile "datasets/engineered_data.csv" d)) (fun _ =>
  rBind (rEmit (Event.printed "Engineered dataset saved")) (fun _ =>
  rPure d))))))

/-- Model of the feature-engineering phase of main.py: engineer_all_features
on the loaded dataframe, then save_engineered_data, with the prints of main
and of save_engineered_data; the later visualization phase reads the saved
file and is outside this core.  No validation occurs on this path. -/
def main_run (df : DataFrame) : Run DataFrame :=
  rBind (rEmit (Event.printed "Starting feature engineering...")) (fun _ =>
  rBind (rOfOption (engineer_all_features df)) (fun d =>
  rBind (rEmit (Event.savedFile "datasets/engineered_data.csv" d)) (fun _ =>
  rBind (rEmit (Event.printed "Engineered dataset saved")) (fun _ =>
  rPure d))))

/-- Drop every comma from a string, the model of str.replace applied to the
separator. -/
def stripCommas (s : String) : String :=
  String.mk (s.data.filter (fun c => c ≠ ','))

/-- Value of a digit string, most significant first; `none` when a character
is not a decimal digit. -/
def digitsToNat : List Char → Option ℕ
  | [] => some 0
  | c :: rest =>
      if c.isDigit then
        (digitsToNat rest).map (fun n => (c.toNat - 48) * 10 ^ rest.length + n)
      else none

/-- Parse an optionally signed decimal integer, the model of the Python int
constructor as used by astype(int); fails on empty or non-numeric text. -/
def parseIntChars : List Char → Option ℤ
  | [] => none
  | '-' :: rest =>
      if rest = [] then none
      else (digitsToNat rest).map (fun n => -(n : ℤ))
  | l => (digitsToNat l).map (fun n => (n : ℤ))

/-- Parse a string as an integer. -/
def parseInt (s : String) : Option ℤ := parseIntChars s.data

/-- Cell transformation of the CollegeVisualizer preprocessing step
(astype(str), drop "," then astype(int)): a text cell parses as an integer
after the separators are removed, an integral numeric cell (int64 column)
passes through, anything else is a cast failure. -/
def cleanVolumeCell : PVal → Option PVal
  | .str s => (parseInt (stripCommas s)).map (fun k => PVal.num (k : ℚ))
  | .num q => if q.den = 1 then some (PVal.num q) else none
  | _ => none

/-- Collect a list of optional values, failing when any is absent. -/
def allSome {α : Type} : List (Option α) → Option (List α)
  | [] => some []
  | none :: _ => none
  | some a :: rest => (allSome rest).map (fun l => a :: l)

/-- Model of CollegeVisualizer._preprocess_data: rewrite the
application_volume column cell by cell through cleanVolumeCell. -/
def preprocess_data (df : DataFrame) : Option DataFrame := do
  let col ← getCol df "application_volume"
  let col2 ← allSome (col.map cleanVolumeCell)
  pure (setCol df "application_volume" col2)

/-- The raw (unrounded) avg_graduation_rate column as a function of the two
graduation-rate columns. -/
def avgCol (xs ys : List PVal) : List PVal :=
  (List.zipWith padd xs ys).map (fun v => pdiv v (PVal.num 2))

/-- The raw graduation_rate_improvement column. -/
def impCol (xs ys : List PVal) : List PVal := List.zipWith psub ys xs

/-- The raw selectivity_score column. -/
def selCol (zs : List PVal) : List PVal :=
  zs.map (fun v => pdiv (PVal.num 1) v)

/-- The raw cohort_size column. -/
def cohCol (ws zs : List PVal) : List PVal := List.zipWith pmul ws zs

/-- The dataframe produced by engineer_all_features, written out as explicit
column assignments: the four raw derivations appended in order, then the
four rounded columns assigned in place. -/
def engOut (df : DataFrame) (xs ys zs ws : List PVal) : DataFrame :=
  setCol (setCol (setCol (setCol
    (setCol (setCol (setCol (setCol df
      "avg_graduation_rate" (avgCol xs ys))
      "graduation_rate_improvement" (impCol xs ys))
      "selectivity_score" (selCol zs))
      "cohort_size" (cohCol ws zs))
    "avg_graduation_rate" ((avgCol xs ys).map (pround 3)))
    "graduation_rate_improvement" ((impCol xs ys).map (pround 3)))
    "selectivity_score" ((selCol zs).map (pround 2)))
    "cohort_size" ((cohCol ws zs).map (pround 2))

/-- The dataframe produced by the derivation portion of the script: three
raw derivations appended in order, then three rounded columns in place. -/
def scriptOut (df : DataFrame) (xs ys zs : List PVal) : DataFrame :=
  setCol (setCol (setCol
    (setCol (setCol (setCol df
      "avg_graduation_rate" (avgCol xs ys))
      "graduation_rate_improvement" (impCol xs ys))
      "selectivity_score" (selCol zs))
    "avg_graduation_rate" ((avgCol xs ys).map (pround 3)))
    "graduation_rate_improvement" ((impCol xs ys).map (pround 3)))
    "selectivity_score" ((selCol zs).map (pround 2))

/-- The four derivation steps of engineer_all_features, as data, for the
statements about reordering them. -/
inductive FStep where
  | avg
  | imp
  | sel
  | coh
deriving DecidableEq

/-- The create method a step stands for. -/
def FStep.app : FStep → DataFrame → Option DataFrame
  | .avg => create_average_graduation_rate
  | .imp => create_graduation_rate_improvement
  | .sel => create_selectivity_score
  | .coh => create_cohort_size

/-- The column a step assigns. -/
def FStep.colName : FStep → String
  | .avg => "avg_graduation_rate"
  | .imp => "graduation_rate_improvement"
  | .sel => "selectivity_score"
  | .coh => "cohort_size"

/-- The raw column a step computes from the base columns. -/
def FStep.rawCol : FStep → List PVal → List PVal → List PVal → List PVal → List PVal
  | .avg => fun xs ys _ _ => avgCol xs ys
  | .imp => fun xs ys _ _ => impCol xs ys
  | .sel => fun _ _ zs _ => selCol zs
  | .coh => fun _ _ zs ws => cohCol ws zs

/-- Run a list of derivation steps in order. -/
def applySteps (l : List FStep) (df : DataFrame) : Option DataFrame :=
  l.foldl (fun acc s => acc.bind s.app) (some df)

/-- The fixed order of engineer_all_features. -/
def fixedOrder : List FStep := [FStep.avg, FStep.imp, FStep.sel, FStep.coh]

/-- Concrete valid dataset of the spec scenario: one institution with
graduation rates 0.40 and 0.60, admission rate 0.20, 40 applications. -/
def dfGood : DataFrame :=
  [("colleges", [PVal.str "A"]),
   ("graduate_rate_4yr", [PVal.num (2/5)]),
   ("graduate_rate_6yr", [PVal.num (3/5)]),
   ("admission_rate", [PVal.num (1/5)]),
   ("application_volume", [PVal.num 40]),
   ("tuition_cost", [PVal.num 90])]

/-- Concrete dataset with a zero admission rate. -/
def dfNeg : DataFrame :=
  [("colleges", [PVal.str "A"]),
   ("graduate_rate_4yr", [PVal.num (2/5)]),
   ("graduate_rate_6yr", [PVal.num (3/5)]),
   ("admission_rate", [PVal.num 0]),
   ("application_volume", [PVal.num 40]),
   ("tuition_cost", [PVal.num 90])]

/-- Concrete dataset with a missing (null) 4-year graduation rate. -/
def dfNan : DataFrame :=
  [("colleges", [PVal.str "A"]),
   ("graduate_rate_4yr", [PVal.nan]),
   ("graduate_rate_6yr", [PVal.num (3/5)]),
   ("admission_rate", [PVal.num (1/5)]),
   ("application_volume", [PVal.num 40]),
   ("tuition_cost", [PVal.num 90])]

/-- Concrete dataset whose application_volume arrives as text with a
thousands separator. -/
def dfText : DataFrame :=
  [("colleges", [PVal.str "A"]),
   ("graduate_rate_4yr", [PVal.num (2/5)]),
   ("graduate_rate_6yr", [PVal.num (3/5)]),
   ("admission_rate", [PVal.num (1/5)]),
   ("application_volume", [PVal.str "1,234"]),
   ("tuition_cost", [PVal.num 90])]

/-- The dataframe the module-level script computes and saves when run on
dfGood. -/
def dfGoodOut : DataFrame :=
  dfGood ++
  [("avg_graduation_rate", [PVal.num (1/2)]),
   ("graduation_rate_improvement", [PVal.num (1/5)]),
   ("selectivity_score", [PVal.num 5])]

/-- The dataframe the script derivation computes on dfNan: the null base
field propagates into the derived columns. -/
def dfNanOut : DataFrame :=
  dfNan ++
  [("avg_graduation_rate", [PVal.nan]),
   ("graduation_rate_improvement", [PVal.nan]),
   ("selectivity_score", [PVal.num 5])]

/-- Column lookup after column assignment: the assigned name reads the new
column, every other name is untouched. -/
theorem getCol_setCol (df : DataFrame) (n : String) (v : List PVal) (m : String) :
    getCol (setCol df n v) m = if n = m then some v else getCol df m := by
  induction df with
  | nil => simp [getCol, setCol]
  | cons p rest ih =>
    obtain ⟨nm, c⟩ := p
    by_cases h1 : nm = n
    · subst h1
      by_cases h2 : nm = m <;> simp [getCol, setCol, h2]
    · by_cases h2 : nm = m
      · subst h2
        have h3 : ¬ n = nm := fun h => h1 h.symm
        simp [getCol, setCol, h1, h3]
      · simp [getCol, setCol, h1, h2, ih]

/-- Assigning a fresh column name appends it at the end of the header. -/
theorem setCol_names_fresh (df : DataFrame) (n : String) (v : List PVal)
    (h : getCol df n = none) : colNames (setCol df n v) = colNames df ++ [n] := by
  induction df with
  | nil => simp [colNames, setCol]
  | cons p rest ih =>
    obtain ⟨nm, c⟩ := p
    by_cases h1 : nm = n
    · simp [getCol, h1] at h
    · have h2 : getCol rest n = none := by simpa [getCol, h1] using h
      simp [colNames, setCol, h1] at ih ⊢
      exact ih h2

/-- Assigning an existing column name leaves the header unchanged. -/
theorem setCol_names_present (df : DataFrame) (n : String) (v c : List PVal)
    (h : getCol df n = some c) : colNames (setCol df n v) = colNames df := by
  induction df with
  | nil => simp [getCol] at h
  | cons p rest ih =>
    obtain ⟨nm, c2⟩ := p
    by_cases h1 : nm = n
    · simp [colNames, setCol, h1]
    · have h2 : getCol rest n = some c := by simpa [getCol, h1] using h
      simp [colNames, setCol, h1] at ih ⊢
      exact ih h2

/-- A successful column lookup exhibits a member of the dataframe. -/
theorem getCol_mem (df : DataFrame) (m : String) (c : List PVal)
    (h : getCol df m = some c) : (m, c) ∈ df := by
  induction df with
  | nil => simp [getCol] at h
  | cons p rest ih =>
    obtain ⟨nm, c2⟩ := p
    by_cases h1 : nm = m
    · subst h1
      simp [getCol] at h
      simp [h]
    · have h2 : getCol rest m = some c := by simpa [getCol, h1] using h
      exact List.mem_cons_of_mem _ (ih h2)

/-- Indexing through zipWith, pointwise version. -/
theorem lget_zipWith (f : PVal → PVal → PVal) (l1 l2 : List PVal) (i : ℕ)
    (a b : PVal) (h1 : l1.get? i = some a) (h2 : l2.get? i = some b) :
    (List.zipWith f l1 l2).get? i = some (f a b) := by
  induction l1 generalizing l2 i with
  | nil => simp at h1
  | cons x xs ih =>
    cases l2 with
    | nil => simp at h2
    | cons y ys =>
      cases i with
      | zero =>
        rw [List.get?_cons_zero] at h1 h2
        cases h1
        cases h2
        simp [List.zipWith_cons_cons]
      | succ j =>
        rw [List.get?_cons_succ] at h1 h2
        rw [List.zipWith_cons_cons, List.get?_cons_succ]
        exact ih ys j h1 h2

/-- Addition of two well-typed cells is well typed. -/
theorem padd_good (a b : PVal) (ha : a.isBad = false) (hb : b.isBad = false) :
    (padd a b).isBad = false := by
  cases a <;> cases b <;> simp_all [padd, PVal.isBad]

/-- Subtraction of two well-typed cells is well typed. -/
theorem psub_good (a b : PVal) (ha : a.isBad = false) (hb : b.isBad = false) :
    (psub a b).isBad = false := by
  cases a <;> cases b <;> simp_all [psub, PVal.isBad]

/-- Multiplication of two well-typed cells is well typed. -/
theorem pmul_good (a b : PVal) (ha : a.isBad = false) (hb : b.isBad = false) :
    (pmul a b).isBad = false := by
  cases a <;> cases b <;> simp_all [pmul, PVal.isBad] <;> split_ifs <;>
    simp [PVal.isBad]

/-- Division of two well-typed cells is well typed. -/
theorem pdiv_good (a b : PVal) (ha : a.isBad = false) (hb : b.isBad = false) :
    (pdiv a b).isBad = false := by
  cases a <;> cases b <;> simp_all [pdiv, PVal.isBad] <;> split_ifs <;>
    simp [PVal.isBad]

/-- Rounding a well-typed cell is well typed. -/
theorem pround_good (n : ℕ) (v : PVal) (h : v.isBad = false) :
    (pround n v).isBad = false := by
  cases v <;> simp_all [pround, PVal.isBad]

/-- A zipWith by a type-preserving operation maps well-typed columns to a
well-typed column. -/
theorem okCol_zipWith (op : PVal → PVal → PVal)
    (hop : ∀ a b, a.isBad = false → b.isBad = false → (op a b).isBad = false)
    (xs ys : List PVal) (hx : okCol xs = true) (hy : okCol ys = true) :
    okCol (List.zipWith op xs ys) = true := by
  induction xs generalizing ys with
  | nil => simp [okCol]
  | cons x xs ih =>
    cases ys with
    | nil => simp [okCol]
    | cons y ys =>
      simp only [okCol, List.all_cons, Bool.and_eq_true, Bool.not_eq_true'] at hx hy
      simp only [List.zipWith_cons_cons, okCol, List.all_cons, Bool.and_eq_true,
        Bool.not_eq_true']
      exact ⟨hop x y hx.1 hy.1, ih ys hx.2 hy.2⟩

/-- A map by a type-preserving function keeps a column well typed. -/
theorem okCol_map (f : PVal → PVal)
    (hf : ∀ a, a.isBad = false → (f a).isBad = false)
    (xs : List PVal) (hx : okCol xs = true) : okCol (xs.map f) = true := by
  induction xs with
  | nil => simp [okCol]
  | cons x xs ih =>
    simp only [okCol, List.all_cons, Bool.and_eq_true, Bool.not_eq_true'] at hx
    simp only [List.map_cons, okCol, List.all_cons, Bool.and_eq_true,
      Bool.not_eq_true']
    exact ⟨hf x hx.1, ih hx.2⟩

/-- A well-typed column passes the TypeError guard unchanged. -/
theorem colCheck_ok (l : List PVal) (h : okCol l = true) : colCheck l = some l := by
  unfold colCheck
  rw [if_neg]
  intro hc
  rw [List.any_eq_true] at hc
  obtain ⟨v, hv, hverr⟩ := hc
  rw [okCol, List.all_eq_true] at h
  have := h v hv
  cases v <;> simp [PVal.isErr] at hverr <;> simp [PVal.isBad] at this

/-- The raw average column of well-typed inputs is well typed. -/
theorem okCol_avgCol (xs ys : List PVal) (hx : okCol xs = true)
    (hy : okCol ys = true) : okCol (avgCol xs ys) = true := by
  unfold avgCol
  exact okCol_map _ (fun a ha => pdiv_good a (PVal.num 2) ha rfl) _
    (okCol_zipWith padd padd_good xs ys hx hy)

/-- The raw improvement column of well-typed inputs is well typed. -/
theorem okCol_impCol (xs ys : List PVal) (hx : okCol xs = true)
    (hy : okCol ys = true) : okCol (impCol xs ys) = true :=
  okCol_zipWith psub psub_good ys xs hy hx

/-- The raw selectivity column of a well-typed input is well typed. -/
theorem okCol_selCol (zs : List PVal) (hz : okCol zs = true) :
    okCol (selCol zs) = true :=
  okCol_map _ (fun a ha => pdiv_good (PVal.num 1) a rfl ha) _ hz

/-- The raw cohort column of well-typed inputs is well typed. -/
theorem okCol_cohCol (ws zs : List PVal) (hw : okCol ws = true)
    (hz : okCol zs = true) : okCol (cohCol ws zs) = true :=
  okCol_zipWith pmul pmul_good ws zs hw hz

/-- A rounded well-typed column is well typed. -/
theorem okCol_roundMap (n : ℕ) (l : List PVal) (h : okCol l = true) :
    okCol (l.map (pround n)) = true :=
  okCol_map _ (pround_good n) _ h

/-- Column lookup after an assignment to a different name. -/
theorem getCol_setCol_ne (df : DataFrame) (n : String) (v : List PVal)
    (m : String) (h : n ≠ m) : getCol (setCol df n v) m = getCol df m := by
  rw [getCol_setCol, if_neg h]

/-- Column lookup of the name just assigned. -/
theorem getCol_setCol_same (df : DataFrame) (n : String) (v : List PVal) :
    getCol (setCol df n v) n = some v := by
  rw [getCol_setCol, if_pos rfl]

/-- Symbolic run of create_average_graduation_rate on well-typed inputs. -/
theorem create_avg_spec (df : DataFrame) (xs ys : List PVal)
    (h4 : getCol df "graduate_rate_4yr" = some xs)
    (h6 : getCol df "graduate_rate_6yr" = some ys)
    (hx : okCol xs = true) (hy : okCol ys = true) :
    create_average_graduation_rate df =
      some (setCol df "avg_graduation_rate" (avgCol xs ys)) := by
  have hsum := okCol_zipWith padd padd_good xs ys hx hy
  have havg := okCol_map _ (fun a ha => pdiv_good a (PVal.num 2) ha rfl) _ hsum
  simp only [create_average_graduation_rate, h4, h6, Option.pure_def,
    Option.bind_eq_bind, Option.some_bind,
    colCheck_ok _ hsum, colCheck_ok _ havg, avgCol]

/-- Symbolic run of create_graduation_rate_improvement on well-typed
inputs. -/
theorem create_imp_spec (df : DataFrame) (xs ys : List PVal)
    (h4 : getCol df "graduate_rate_4yr" = some xs)
    (h6 : getCol df "graduate_rate_6yr" = some ys)
    (hx : okCol xs = true) (hy : okCol ys = true) :
    create_graduation_rate_improvement df =
      some (setCol df "graduation_rate_improvement" (impCol xs ys)) := by
  have himp := okCol_zipWith psub psub_good ys xs hy hx
  simp only [create_graduation_rate_improvement, h4, h6, Option.pure_def,
    Option.bind_eq_bind, Option.some_bind,
    colCheck_ok _ himp, impCol]

/-- Symbolic run of create_selectivity_score on a well-typed input. -/
theorem create_sel_spec (df : DataFrame) (zs : List PVal)
    (hz : getCol df "admission_rate" = some zs) (hzok : okCol zs = true) :
    create_selectivity_score df =
      some (setCol df "selectivity_score" (selCol zs)) := by
  have hsel := okCol_map _ (fun a ha => pdiv_good (PVal.num 1) a rfl ha) _ hzok
  simp only [create_selectivity_score, hz, Option.pure_def,
    Option.bind_eq_bind, Option.some_bind,
    colCheck_ok _ hsel, selCol]

/-- Symbolic run of create_cohort_size on well-typed inputs. -/
theorem create_coh_spec (df : DataFrame) (ws zs : List PVal)
    (hw : getCol df "application_volume" = some ws)
    (hz : getCol df "admission_rate" = some zs)
    (hwok : okCol ws = true) (hzok : okCol zs = true) :
    create_cohort_size df = some (setCol df "cohort_size" (cohCol ws zs)) := by
  have hcoh := okCol_zipWith pmul pmul_good ws zs hwok hzok
  simp only [create_cohort_size, hw, hz, Option.pure_def,
    Option.bind_eq_bind, Option.some_bind,
    colCheck_ok _ hcoh, cohCol]

/-- Symbolic run of round_features on a dataframe whose four derived columns
are present and well typed. -/
theorem round_spec (df : DataFrame) (A I S C : List PVal)
    (hA : getCol df "avg_graduation_rate" = some A)
    (hI : getCol df "graduation_rate_improvement" = some I)
    (hS : getCol df "selectivity_score" = some S)
    (hC : getCol df "cohort_size" = some C)
    (okA : okCol A = true) (okI : okCol I = true)
    (okS : okCol S = true) (okC : okCol C = true) :
    round_features df =
      some (setCol (setCol (setCol (setCol df
        "avg_graduation_rate" (A.map (pround 3)))
        "graduation_rate_improvement" (I.map (pround 3)))
        "selectivity_score" (S.map (pround 2)))
        "cohort_size" (C.map (pround 2))) := by
  simp only [round_features, hA, Option.pure_def,
    Option.bind_eq_bind, Option.some_bind,
    colCheck_ok _ (okCol_roundMap 3 A okA)]
  rw [getCol_setCol_ne _ _ _ _ (by decide), hI]
  simp only [Option.bind_eq_bind, Option.some_bind,
    colCheck_ok _ (okCol_roundMap 3 I okI)]
  rw [getCol_setCol_ne _ _ _ _ (by decide),
    getCol_setCol_ne _ _ _ _ (by decide), hS]
  simp only [Option.bind_eq_bind, Option.some_bind,
    colCheck_ok _ (okCol_roundMap 2 S okS)]
  rw [getCol_setCol_ne _ _ _ _ (by decide),
    getCol_setCol_ne _ _ _ _ (by decide),
    getCol_setCol_ne _ _ _ _ (by decide), hC]
  simp only [Option.bind_eq_bind, Option.some_bind,
    colCheck_ok _ (okCol_roundMap 2 C okC)]

/-- Symbolic run of the whole class pipeline engineer_all_features on a
dataframe whose four base columns are present and well typed: it succeeds
and produces exactly the engOut column assignments. -/
theorem eng_spec (df : DataFrame) (xs ys zs ws : List PVal)
    (h4 : getCol df "graduate_rate_4yr" = some xs)
    (h6 : getCol df "graduate_rate_6yr" = some ys)
    (hz : getCol df "admission_rate" = some zs)
    (hw : getCol df "application_volume" = some ws)
    (hx : okCol xs = true) (hy : okCol ys = true)
    (hzok : okCol zs = true) (hwok : okCol ws = true) :
    engineer_all_features df = some (engOut df xs ys zs ws) := by
  have e1 := create_avg_spec df xs ys h4 h6 hx hy
  have e2 := create_imp_spec (setCol df "avg_graduation_rate" (avgCol xs ys))
    xs ys
    (by rw [getCol_setCol_ne _ _ _ _ (by decide)]; exact h4)
    (by rw [getCol_setCol_ne _ _ _ _ (by decide)]; exact h6) hx hy
  have e3 := create_sel_spec
    (setCol (setCol df "avg_graduation_rate" (avgCol xs ys))
      "graduation_rate_improvement" (impCol xs ys)) zs
    (by rw [getCol_setCol_ne _ _ _ _ (by decide),
          getCol_setCol_ne _ _ _ _ (by decide)]; exact hz) hzok
  have e4 := create_coh_spec
    (setCol (setCol (setCol df "avg_graduation_rate" (avgCol xs ys))
      "graduation_rate_improvement" (impCol xs ys))
      "selectivity_score" (selCol zs)) ws zs
    (by rw [getCol_setCol_ne _ _ _ _ (by decide),
          getCol_setCol_ne _ _ _ _ (by decide),
          getCol_setCol_ne _ _ _ _ (by decide)]; exact hw)
    (by rw [getCol_setCol_ne _ _ _ _ (by decide),
          getCol_setCol_ne _ _ _ _ (by decide),
          getCol_setCol_ne _ _ _ _ (by decide)]; exact hz) hwok hzok
  have e5 := round_spec
    (setCol (setCol (setCol (setCol df "avg_graduation_rate" (avgCol xs ys))
      "graduation_rate_improvement" (impCol xs ys))
      "selectivity_score" (selCol zs))
      "cohort_size" (cohCol ws zs))
    (avgCol xs ys) (impCol xs ys) (selCol zs) (cohCol ws zs)
    (by rw [getCol_setCol_ne _ _ _ _ (by decide),
          getCol_setCol_ne _ _ _ _ (by decide),
          getCol_setCol_ne _ _ _ _ (by decide)]
        exact getCol_setCol_same _ _ _)
    (by rw [getCol_setCol_ne _ _ _ _ (by decide),
          getCol_setCol_ne _ _ _ _ (by decide)]
        exact getCol_setCol_same _ _ _)
    (by rw [getCol_setCol_ne _ _ _ _ (by decide)]
        exact getCol_setCol_same _ _ _)
    (getCol_setCol_same _ _ _)
    (okCol_avgCol xs ys hx hy) (okCol_impCol xs ys hx hy)
    (okCol_selCol zs hzok) (okCol_cohCol ws zs hwok hzok)
  simp only [engineer_all_features, Option.pure_def, Option.bind_eq_bind,
    e1, Option.some_bind, e2, e3, e4, e5, engOut]

/-- Column view of the engineered output: the four derived names read their
rounded columns, every other name reads the original dataframe. -/
theorem getCol_engOut (df : DataFrame) (xs ys zs ws : List PVal) (m : String) :
    getCol (engOut df xs ys zs ws) m =
      if "cohort_size" = m then some ((cohCol ws zs).map (pround 2))
      else if "selectivity_score" = m then some ((selCol zs).map (pround 2))
      else if "graduation_rate_improvement" = m then
        some ((impCol xs ys).map (pround 3))
      else if "avg_graduation_rate" = m then
        some ((avgCol xs ys).map (pround 3))
      else getCol df m := by
  unfold engOut
  rw [getCol_setCol, getCol_setCol, getCol_setCol, getCol_setCol,
    getCol_setCol, getCol_setCol, getCol_setCol, getCol_setCol]
  by_cases h1 : "cohort_size" = m
  · rw [if_pos h1, if_pos h1]
  · rw [if_neg h1, if_neg h1, if_neg h1]
    by_cases h2 : "selectivity_score" = m
    · rw [if_pos h2, if_pos h2]
    · rw [if_neg h2, if_neg h2, if_neg h2]
      by_cases h3 : "graduation_rate_improvement" = m
      · rw [if_pos h3, if_pos h3]
      · rw [if_neg h3, if_neg h3, if_neg h3]
        by_cases h4 : "avg_graduation_rate" = m
        · rw [if_pos h4, if_pos h4]
        · rw [if_neg h4, if_neg h4, if_neg h4]

/-- Symbolic run of the derivation lines of the script on well-typed
inputs. -/
theorem scriptDeriveCols_spec (df : DataFrame) (xs ys zs : List PVal)
    (h4 : getCol df "graduate_rate_4yr" = some xs)
    (h6 : getCol df "graduate_rate_6yr" = some ys)
    (hz : getCol df "admission_rate" = some zs)
    (hx : okCol xs = true) (hy : okCol ys = true) (hzok : okCol zs = true) :
    scriptDeriveCols df =
      some (setCol (setCol (setCol df "avg_graduation_rate" (avgCol xs ys))
        "graduation_rate_improvement" (impCol xs ys))
        "selectivity_score" (selCol zs)) := by
  have hsum := okCol_zipWith padd padd_good xs ys hx hy
  have havg := okCol_map _ (fun a ha => pdiv_good a (PVal.num 2) ha rfl) _ hsum
  have himp := okCol_zipWith psub psub_good ys xs hy hx
  have hsel := okCol_map _ (fun a ha => pdiv_good (PVal.num 1) a rfl ha) _ hzok
  simp only [scriptDeriveCols, h4, h6, Option.pure_def, Option.bind_eq_bind,
    Option.some_bind, colCheck_ok _ hsum, colCheck_ok _ havg]
  rw [getCol_setCol_ne _ _ _ _ (by decide), h4]
  simp only [Option.some_bind]
  rw [getCol_setCol_ne _ _ _ _ (by decide), h6]
  simp only [Option.some_bind, colCheck_ok _ himp]
  rw [getCol_setCol_ne _ _ _ _ (by decide),
    getCol_setCol_ne _ _ _ _ (by decide), hz]
  simp only [Option.some_bind, colCheck_ok _ hsel, avgCol, impCol, selCol]

/-- Symbolic run of the rounding lines of the script on a dataframe whose
three derived columns are present and well typed. -/
theorem scriptRound_spec (df : DataFrame) (A I S : List PVal)
    (hA : getCol df "avg_graduation_rate" = some A)
    (hI : getCol df "graduation_rate_improvement" = some I)
    (hS : getCol df "selectivity_score" = some S)
    (okA : okCol A = true) (okI : okCol I = true) (okS : okCol S = true) :
    scriptRound df =
      some (setCol (setCol (setCol df
        "avg_graduation_rate" (A.map (pround 3)))
        "graduation_rate_improvement" (I.map (pround 3)))
        "selectivity_score" (S.map (pround 2))) := by
  simp only [scriptRound, hA, Option.pure_def, Option.bind_eq_bind,
    Option.some_bind, colCheck_ok _ (okCol_roundMap 3 A okA)]
  rw [getCol_setCol_ne _ _ _ _ (by decide), hI]
  simp only [Option.some_bind, colCheck_ok _ (okCol_roundMap 3 I okI)]
  rw [getCol_setCol_ne _ _ _ _ (by decide),
    getCol_setCol_ne _ _ _ _ (by decide), hS]
  simp only [Option.some_bind, colCheck_ok _ (okCol_roundMap 2 S okS)]

/-- Symbolic run of the derivation and rounding portion of the script. -/
theorem script_spec (df : DataFrame) (xs ys zs : List PVal)
    (h4 : getCol df "graduate_rate_4yr" = some xs)
    (h6 : getCol df "graduate_rate_6yr" = some ys)
    (hz : getCol df "admission_rate" = some zs)
    (hx : okCol xs = true) (hy : okCol ys = true) (hzok : okCol zs = true) :
    scriptDerive df = some (scriptOut df xs ys zs) := by
  have e1 := scriptDeriveCols_spec df xs ys zs h4 h6 hz hx hy hzok
  have e2 := scriptRound_spec
    (setCol (setCol (setCol df "avg_graduation_rate" (avgCol xs ys))
      "graduation_rate_improvement" (impCol xs ys))
      "selectivity_score" (selCol zs))
    (avgCol xs ys) (impCol xs ys) (selCol zs)
    (by rw [getCol_setCol_ne _ _ _ _ (by decide),
          getCol_setCol_ne _ _ _ _ (by decide)]
        exact getCol_setCol_same _ _ _)
    (by rw [getCol_setCol_ne _ _ _ _ (by decide)]
        exact getCol_setCol_same _ _ _)
    (getCol_setCol_same _ _ _)
    (okCol_avgCol xs ys hx hy) (okCol_impCol xs ys hx hy)
    (okCol_selCol zs hzok)
  simp only [scriptDerive, e1, Option.some_bind, e2, scriptOut]

/-- Column view of the script output: the three derived names read their
rounded columns, every other name reads the original dataframe. -/
theorem getCol_scriptOut (df : DataFrame) (xs ys zs : List PVal) (m : String) :
    getCol (scriptOut df xs ys zs) m =
      if "selectivity_score" = m then some ((selCol zs).map (pround 2))
      else if "graduation_rate_improvement" = m then
        some ((impCol xs ys).map (pround 3))
      else if "avg_graduation_rate" = m then
        some ((avgCol xs ys).map (pround 3))
      else getCol df m := by
  unfold scriptOut
  rw [getCol_setCol, getCol_setCol, getCol_setCol, getCol_setCol,
    getCol_setCol, getCol_setCol]
  by_cases h2 : "selectivity_score" = m
  · rw [if_pos h2, if_pos h2]
  · rw [if_neg h2, if_neg h2, if_neg h2]
    by_cases h3 : "graduation_rate_improvement" = m
    · rw [if_pos h3, if_pos h3]
    · rw [if_neg h3, if_neg h3, if_neg h3]
      by_cases h4 : "avg_graduation_rate" = m
      · rw [if_pos h4, if_pos h4]
      · rw [if_neg h4, if_neg h4, if_neg h4]

/-- Numeric case of addition. -/
theorem padd_num (a b : ℚ) : padd (PVal.num a) (PVal.num b) = PVal.num (a + b) := rfl

/-- Numeric case of subtraction. -/
theorem psub_num (a b : ℚ) : psub (PVal.num a) (PVal.num b) = PVal.num (a - b) := rfl

/-- Numeric case of multiplication. -/
theorem pmul_num (a b : ℚ) : pmul (PVal.num a) (PVal.num b) = PVal.num (a * b) := rfl

/-- Numeric case of division by a non-zero value. -/
theorem pdiv_num (a b : ℚ) (hb : b ≠ 0) :
    pdiv (PVal.num a) (PVal.num b) = PVal.num (a / b) := by
  simp [pdiv, hb]

/-- Numeric case of rounding. -/
theorem pround_num (n : ℕ) (q : ℚ) :
    pround n (PVal.num q) = PVal.num (roundTo n q) := rfl

/-- C1: on a dataset whose base fields are present and numeric at row i and
whose rate values there are strictly positive, every row of the engineered
output satisfies the four postconditions, with the single rounding mode
roundTo (round-half-to-even) applied to all four derived columns: the
average to 3 decimals, the improvement to 3 decimals, the selectivity score
to 2 decimals and the cohort size to 2 decimals. -/
theorem claim_C1 (df : DataFrame) (xs ys zs ws : List PVal)
    (h4 : getCol df "graduate_rate_4yr" = some xs)
    (h6 : getCol df "graduate_rate_6yr" = some ys)
    (hz : getCol df "admission_rate" = some zs)
    (hw : getCol df "application_volume" = some ws)
    (hx : okCol xs = true) (hy : okCol ys = true)
    (hzok : okCol zs = true) (hwok : okCol ws = true)
    (i : ℕ) (a b c v : ℚ)
    (hxi : xs.get? i = some (PVal.num a)) (hyi : ys.get? i = some (PVal.num b))
    (hzi : zs.get? i = some (PVal.num c)) (hwi : ws.get? i = some (PVal.num v))
    (ha : 0 < a) (hb : 0 < b) (hc : 0 < c) :
    ∃ out, engineer_all_features df = some out ∧
      cell out "avg_graduation_rate" i =
        some (PVal.num (roundTo 3 ((a + b) / 2))) ∧
      cell out "graduation_rate_improvement" i =
        some (PVal.num (roundTo 3 (b - a))) ∧
      cell out "selectivity_score" i =
        some (PVal.num (roundTo 2 (1 / c))) ∧
      cell out "cohort_size" i =
        some (PVal.num (roundTo 2 (v * c))) := by
  refine ⟨engOut df xs ys zs ws,
    eng_spec df xs ys zs ws h4 h6 hz hw hx hy hzok hwok, ?_, ?_, ?_, ?_⟩
  · rw [cell, getCol_engOut, if_neg (by decide), if_neg (by decide),
      if_neg (by decide), if_pos rfl, Option.some_bind, List.get?_map, avgCol,
      List.get?_map, lget_zipWith padd xs ys i _ _ hxi hyi]
    rw [padd_num, Option.map_some', Option.map_some',
      pdiv_num _ _ (by norm_num), pround_num]
  · rw [cell, getCol_engOut, if_neg (by decide), if_neg (by decide),
      if_pos rfl, Option.some_bind, List.get?_map, impCol,
      lget_zipWith psub ys xs i _ _ hyi hxi]
    rw [psub_num, Option.map_some', pround_num]
  · rw [cell, getCol_engOut, if_neg (by decide), if_pos rfl,
      Option.some_bind, List.get?_map, selCol, List.get?_map, hzi]
    rw [Option.map_some', pdiv_num _ _ hc.ne', Option.map_some', pround_num]
  · rw [cell, getCol_engOut, if_pos rfl, Option.some_bind, List.get?_map,
      cohCol, lget_zipWith pmul ws zs i _ _ hwi hzi]
    rw [pmul_num, Option.map_some', pround_num]

/-- Witness for C1 at the concrete valid dataset dfGood, row 0. -/
theorem claim_C1_witness :
    ∃ out, engineer_all_features dfGood = some out ∧
      cell out "avg_graduation_rate" 0 =
        some (PVal.num (roundTo 3 ((2/5 + 3/5) / 2))) ∧
      cell out "graduation_rate_improvement" 0 =
        some (PVal.num (roundTo 3 (3/5 - 2/5))) ∧
      cell out "selectivity_score" 0 =
        some (PVal.num (roundTo 2 (1 / (1/5)))) ∧
      cell out "cohort_size" 0 =
        some (PVal.num (roundTo 2 (40 * (1/5)))) :=
  claim_C1 dfGood [PVal.num (2/5)] [PVal.num (3/5)] [PVal.num (1/5)]
    [PVal.num 40] (by with_unfolding_all rfl) (by with_unfolding_all rfl)
    (by with_unfolding_all rfl) (by with_unfolding_all rfl) rfl rfl rfl rfl
    0 (2/5) (3/5) (1/5) 40 rfl rfl rfl rfl
    (by norm_num) (by norm_num) (by norm_num)

/-- C2 counterexample: dfNeg has admission_rate 0, a non-positive rate
value, yet the class pipeline engineer_all_features (the feature-engineering
pipeline that main runs) raises nothing and computes the selectivity score,
producing positive infinity from the division 1 / 0. -/
theorem claim_C2_counterexample :
    (engineer_all_features dfNeg).bind
      (fun d => getCol d "selectivity_score") = some [PVal.inf] := by
  with_unfolding_all decide

/-- C2 amended: only the module-level script validates the rates, and it
raises the non-positive-rates error exactly when some cell of the three rate
columns is at most zero; the class pipeline performs no such validation. -/
theorem claim_C2_amended (df : DataFrame) (xs ys zs : List PVal)
    (h4 : getCol df "graduate_rate_4yr" = some xs)
    (h6 : getCol df "graduate_rate_6yr" = some ys)
    (hz : getCol df "admission_rate" = some zs)
    (hx : okCol xs = true) (hy : okCol ys = true) (hzok : okCol zs = true) :
    ((script_run df).2 = Except.error Err.negativeRates ↔
      (xs.any pNonPos || ys.any pNonPos || zs.any pNonPos) = true) := by
  have hcr : checkRates df =
      some (xs.any pNonPos || ys.any pNonPos || zs.any pNonPos) := by
    simp only [checkRates, h4, h6, hz, Option.pure_def, Option.bind_eq_bind,
      Option.some_bind, hx, hy, hzok]
    simp
  unfold script_run
  rw [hcr]
  cases hb : (xs.any pNonPos || ys.any pNonPos || zs.any pNonPos) with
  | true => simp [rOfOption, rPure, rBind, rThrow]
  | false =>
    cases hsd : scriptDerive df with
    | none => simp [rOfOption, rPure, rBind, rThrow]
    | some d =>
      cases hn : anyNull d with
      | true => simp [rOfOption, rPure, rBind, rThrow, rEmit, hn]
      | false => simp [rOfOption, rPure, rBind, rThrow, rEmit, hn]

/-- Witness for C2 amended at dfNeg: the script aborts with the
non-positive-rates error. -/
theorem claim_C2_witness :
    (script_run dfNeg).2 = Except.error Err.negativeRates :=
  (claim_C2_amended dfNeg [PVal.num (2/5)] [PVal.num (3/5)] [PVal.num 0]
    (by with_unfolding_all rfl) (by with_unfolding_all rfl)
    (by with_unfolding_all rfl) rfl rfl rfl).mpr
    (by with_unfolding_all decide)

/-- C3 counterexample: dfNeg violates the input-validation condition (an
admission_rate of 0), yet the pipeline that main runs saves an output file
anyway, because the class pipeline contains no validation step. -/
theorem claim_C3_counterexample :
    (main_run dfNeg).1.any isSave = true := by
  with_unfolding_all decide

/-- C3 amended: in the module-level script a file write happens only on a
run whose outcome is normal: every failure, in particular both validation
failures, aborts the run before the save step.  The class pipeline of main
has no validation and persists regardless (see the counterexample). -/
theorem claim_C3_amended (df : DataFrame) (p : String) (d : DataFrame)
    (h : Event.savedFile p d ∈ (script_run df).1) :
    ∃ out, (script_run df).2 = Except.ok out := by
  unfold script_run at h ⊢
  cases hcr : checkRates df with
  | none => rw [hcr] at h; simp [rOfOption, rThrow, rBind] at h
  | some bad =>
    rw [hcr] at h
    cases bad with
    | true => simp [rOfOption, rPure, rBind, rThrow] at h
    | false =>
      cases hsd : scriptDerive df with
      | none => rw [hsd] at h; simp [rOfOption, rPure, rBind, rThrow] at h
      | some dd =>
        rw [hsd] at h
        cases hn : anyNull dd with
        | true =>
          simp [rOfOption, rPure, rBind, rThrow, rEmit, hn] at h
        | false =>
          exact ⟨dd, by simp [rOfOption, rPure, rBind, rEmit, hn]⟩

/-- Witness for C3 amended: the script run on dfGood does save, and the
theorem yields its normal outcome. -/
theorem claim_C3_witness :
    ∃ out, (script_run dfGood).2 = Except.ok out :=
  claim_C3_amended dfGood "datasets/engineered_data.csv" dfGoodOut
    (by with_unfolding_all decide)

/-- C4 counterexample: dfNan carries a null base field which propagates into
the derived average column, yet the class pipeline run by main performs no
null check at all: the run succeeds and the output is saved with the null
inside. -/
theorem claim_C4_counterexample :
    (engineer_all_features dfNan).bind
        (fun d => getCol d "avg_graduation_rate") = some [PVal.nan] ∧
      (main_run dfNan).1.any isSave = true := by
  constructor
  · with_unfolding_all decide
  · with_unfolding_all decide

/-- C4 amended: in the module-level script the null check runs after
derivation and rounding and before any output: when the derived dataframe
contains a null, the run aborts with the missing-values error and no file
write occurs.  The class pipeline contains no null check. -/
theorem claim_C4_amended (df : DataFrame) (d : DataFrame)
    (hcr : checkRates df = some false)
    (hsd : scriptDerive df = some d)
    (hn : anyNull d = true) :
    (script_run df).2 = Except.error Err.missingValues ∧
      (script_run df).1.any isSave = false := by
  unfold script_run
  rw [hcr, hsd]
  simp [rOfOption, rPure, rBind, rThrow, rEmit, hn]

/-- Witness for C4 amended at dfNan: the script aborts with the
missing-values error and writes nothing. -/
theorem claim_C4_witness :
    (script_run dfNan).2 = Except.error Err.missingValues ∧
      (script_run dfNan).1.any isSave = false :=
  claim_C4_amended dfNan dfNanOut (by with_unfolding_all decide)
    (by with_unfolding_all decide) (by with_unfolding_all decide)

/-- C9: the diagnostic print placed after the missing-values raise in the
script is unreachable: no run of the script, on any input dataframe, ever
emits the null-summary print event. -/
theorem claim_C9 (df : DataFrame) (cs : List (String × ℕ)) :
    Event.printedNullSummary cs ∉ (script_run df).1 := by
  unfold script_run
  cases hcr : checkRates df with
  | none => simp [rOfOption, rThrow, rBind]
  | some bad =>
    cases bad with
    | true => simp [rOfOption, rPure, rBind, rThrow]
    | false =>
      cases hsd : scriptDerive df with
      | none => simp [rOfOption, rPure, rBind, rThrow]
      | some d =>
        cases hn : anyNull d with
        | true => simp [rOfOption, rPure, rBind, rThrow, rEmit, hn]
        | false => simp [rOfOption, rPure, rBind, rThrow, rEmit, hn]

/-- Length of the raw average column. -/
theorem length_avgCol (xs ys : List PVal) :
    (avgCol xs ys).length = min xs.length ys.length := by
  simp [avgCol]

/-- Length of the raw improvement column. -/
theorem length_impCol (xs ys : List PVal) :
    (impCol xs ys).length = min ys.length xs.length := by
  simp [impCol]

/-- Length of the raw selectivity column. -/
theorem length_selCol (zs : List PVal) : (selCol zs).length = zs.length := by
  simp [selCol]

/-- Length of the raw cohort column. -/
theorem length_cohCol (ws zs : List PVal) :
    (cohCol ws zs).length = min ws.length zs.length := by
  simp [cohCol]

/-- Header of the engineered output: the original names followed by the four
derived names, in order, when the derived names are fresh. -/
theorem colNames_engOut (df : DataFrame) (xs ys zs ws : List PVal)
    (f1 : getCol df "avg_graduation_rate" = none)
    (f2 : getCol df "graduation_rate_improvement" = none)
    (f3 : getCol df "selectivity_score" = none)
    (f4 : getCol df "cohort_size" = none) :
    colNames (engOut df xs ys zs ws) = colNames df ++
      ["avg_graduation_rate", "graduation_rate_improvement",
       "selectivity_score", "cohort_size"] := by
  unfold engOut
  rw [setCol_names_present _ _ _ ((cohCol ws zs))
        (by rw [getCol_setCol_ne _ _ _ _ (by decide),
              getCol_setCol_ne _ _ _ _ (by decide),
              getCol_setCol_ne _ _ _ _ (by decide)]
            exact getCol_setCol_same _ _ _),
      setCol_names_present _ _ _ ((selCol zs))
        (by rw [getCol_setCol_ne _ _ _ _ (by decide),
              getCol_setCol_ne _ _ _ _ (by decide),
              getCol_setCol_ne _ _ _ _ (by decide)]
            exact getCol_setCol_same _ _ _),
      setCol_names_present _ _ _ ((impCol xs ys))
        (by rw [getCol_setCol_ne _ _ _ _ (by decide),
              getCol_setCol_ne _ _ _ _ (by decide),
              getCol_setCol_ne _ _ _ _ (by decide)]
            exact getCol_setCol_same _ _ _),
      setCol_names_present _ _ _ ((avgCol xs ys))
        (by rw [getCol_setCol_ne _ _ _ _ (by decide),
              getCol_setCol_ne _ _ _ _ (by decide),
              getCol_setCol_ne _ _ _ _ (by decide)]
            exact getCol_setCol_same _ _ _),
      setCol_names_fresh _ _ _
        (by rw [getCol_setCol_ne _ _ _ _ (by decide),
              getCol_setCol_ne _ _ _ _ (by decide),
              getCol_setCol_ne _ _ _ _ (by decide)]
            exact f4),
      setCol_names_fresh _ _ _
        (by rw [getCol_setCol_ne _ _ _ _ (by decide),
              getCol_setCol_ne _ _ _ _ (by decide)]
            exact f3),
      setCol_names_fresh _ _ _
        (by rw [getCol_setCol_ne _ _ _ _ (by decide)]
            exact f2),
      setCol_names_fresh _ _ _ f1]
  simp

/-- C5: on a well-formed dataset (uniform row count, fresh derived names)
the engineering step leaves every original column unchanged (hence row order
and the values of every original field), gives every column of the output
exactly the input row count, and the header that to_csv writes is the
original columns followed by the derived columns in the order
avg_graduation_rate, graduation_rate_improvement, selectivity_score,
cohort_size. -/
theorem claim_C5 (df : DataFrame) (xs ys zs ws : List PVal) (n : ℕ)
    (h4 : getCol df "graduate_rate_4yr" = some xs)
    (h6 : getCol df "graduate_rate_6yr" = some ys)
    (hz : getCol df "admission_rate" = some zs)
    (hw : getCol df "application_volume" = some ws)
    (hx : okCol xs = true) (hy : okCol ys = true)
    (hzok : okCol zs = true) (hwok : okCol ws = true)
    (hlx : xs.length = n) (hly : ys.length = n)
    (hlz : zs.length = n) (hlw : ws.length = n)
    (hwf : ∀ p ∈ df, (Prod.snd p).length = n)
    (f1 : getCol df "avg_graduation_rate" = none)
    (f2 : getCol df "graduation_rate_improvement" = none)
    (f3 : getCol df "selectivity_score" = none)
    (f4 : getCol df "cohort_size" = none) :
    ∃ out, engineer_all_features df = some out ∧
      (to_csv out).1 = colNames df ++
        ["avg_graduation_rate", "graduation_rate_improvement",
         "selectivity_score", "cohort_size"] ∧
      (∀ m, m ≠ "avg_graduation_rate" → m ≠ "graduation_rate_improvement" →
        m ≠ "selectivity_score" → m ≠ "cohort_size" →
        getCol out m = getCol df m) ∧
      (∀ m c, getCol out m = some c → c.length = n) := by
  refine ⟨engOut df xs ys zs ws,
    eng_spec df xs ys zs ws h4 h6 hz hw hx hy hzok hwok, ?_, ?_, ?_⟩
  · exact colNames_engOut df xs ys zs ws f1 f2 f3 f4
  · intro m m1 m2 m3 m4
    rw [getCol_engOut, if_neg (fun h => m4 h.symm), if_neg (fun h => m3 h.symm),
      if_neg (fun h => m2 h.symm), if_neg (fun h => m1 h.symm)]
  · intro m c hc
    rw [getCol_engOut] at hc
    by_cases c1 : "cohort_size" = m
    · rw [if_pos c1] at hc
      cases hc
      simp [length_cohCol, hlw, hlz]
    · rw [if_neg c1] at hc
      by_cases c2 : "selectivity_score" = m
      · rw [if_pos c2] at hc
        cases hc
        simp [length_selCol, hlz]
      · rw [if_neg c2] at hc
        by_cases c3 : "graduation_rate_improvement" = m
        · rw [if_pos c3] at hc
          cases hc
          simp [length_impCol, hlx, hly]
        · rw [if_neg c3] at hc
          by_cases c4 : "avg_graduation_rate" = m
          · rw [if_pos c4] at hc
            cases hc
            simp [length_avgCol, hlx, hly]
          · rw [if_neg c4] at hc
            exact hwf (m, c) (getCol_mem df m c hc)

/-- Witness for C5 at dfGood. -/
theorem claim_C5_witness :
    ∃ out, engineer_all_features dfGood = some out ∧
      (to_csv out).1 = colNames dfGood ++
        ["avg_graduation_rate", "graduation_rate_improvement",
         "selectivity_score", "cohort_size"] ∧
      (∀ m, m ≠ "avg_graduation_rate" → m ≠ "graduation_rate_improvement" →
        m ≠ "selectivity_score" → m ≠ "cohort_size" →
        getCol out m = getCol dfGood m) ∧
      (∀ m c, getCol out m = some c → c.length = 1) :=
  claim_C5 dfGood [PVal.num (2/5)] [PVal.num (3/5)] [PVal.num (1/5)]
    [PVal.num 40] 1 (by with_unfolding_all rfl) (by with_unfolding_all rfl)
    (by with_unfolding_all rfl) (by with_unfolding_all rfl) rfl rfl rfl rfl
    rfl rfl rfl rfl (by
      intro p hp
      simp only [dfGood, List.mem_cons, List.not_mem_nil, or_false] at hp
      rcases hp with h | h | h | h | h | h <;> subst h <;> rfl)
    (by with_unfolding_all rfl) (by with_unfolding_all rfl)
    (by with_unfolding_all rfl) (by with_unfolding_all rfl)

/-- C6: the engineering step is idempotent: applied a second time to its own
output it recomputes the derived columns from the unchanged base columns, so
the second output agrees with the first on every column, the four derived
columns included. -/
theorem claim_C6 (df : DataFrame) (xs ys zs ws : List PVal)
    (h4 : getCol df "graduate_rate_4yr" = some xs)
    (h6 : getCol df "graduate_rate_6yr" = some ys)
    (hz : getCol df "admission_rate" = some zs)
    (hw : getCol df "application_volume" = some ws)
    (hx : okCol xs = true) (hy : okCol ys = true)
    (hzok : okCol zs = true) (hwok : okCol ws = true) :
    ∃ out out2, engineer_all_features df = some out ∧
      engineer_all_features out = some out2 ∧
      ∀ m, getCol out2 m = getCol out m := by
  refine ⟨engOut df xs ys zs ws, engOut (engOut df xs ys zs ws) xs ys zs ws,
    eng_spec df xs ys zs ws h4 h6 hz hw hx hy hzok hwok,
    eng_spec _ xs ys zs ws
      (by rw [getCol_engOut, if_neg (by decide), if_neg (by decide),
            if_neg (by decide), if_neg (by decide)]; exact h4)
      (by rw [getCol_engOut, if_neg (by decide), if_neg (by decide),
            if_neg (by decide), if_neg (by decide)]; exact h6)
      (by rw [getCol_engOut, if_neg (by decide), if_neg (by decide),
            if_neg (by decide), if_neg (by decide)]; exact hz)
      (by rw [getCol_engOut, if_neg (by decide), if_neg (by decide),
            if_neg (by decide), if_neg (by decide)]; exact hw)
      hx hy hzok hwok, ?_⟩
  intro m
  rw [getCol_engOut]
  by_cases c1 : "cohort_size" = m
  · rw [if_pos c1, getCol_engOut, if_pos c1]
  · rw [if_neg c1, getCol_engOut, if_neg c1]
    by_cases c2 : "selectivity_score" = m
    · rw [if_pos c2, if_pos c2]
    · rw [if_neg c2, if_neg c2]
      by_cases c3 : "graduation_rate_improvement" = m
      · rw [if_pos c3, if_pos c3]
      · rw [if_neg c3, if_neg c3]
        by_cases c4 : "avg_graduation_rate" = m
        · rw [if_pos c4, if_pos c4]
        · rw [if_neg c4, if_neg c4]

/-- Witness for C6 at dfGood. -/
theorem claim_C6_witness :
    ∃ out out2, engineer_all_features dfGood = some out ∧
      engineer_all_features out = some out2 ∧
      ∀ m, getCol out2 m = getCol out m :=
  claim_C6 dfGood [PVal.num (2/5)] [PVal.num (3/5)] [PVal.num (1/5)]
    [PVal.num 40] (by with_unfolding_all rfl) (by with_unfolding_all rfl)
    (by with_unfolding_all rfl) (by with_unfolding_all rfl) rfl rfl rfl rfl

/-- C10: on a valid dataset the module-level script and the class pipeline
agree on every column other than cohort_size: the script derives the same
three columns with the same values and the same rounding, leaves the
original columns equally unchanged, and never adds a cohort_size column,
which only the class pipeline produces. -/
theorem claim_C10 (df : DataFrame) (xs ys zs ws : List PVal)
    (h4 : getCol df "graduate_rate_4yr" = some xs)
    (h6 : getCol df "graduate_rate_6yr" = some ys)
    (hz : getCol df "admission_rate" = some zs)
    (hw : getCol df "application_volume" = some ws)
    (hx : okCol xs = true) (hy : okCol ys = true)
    (hzok : okCol zs = true) (hwok : okCol ws = true)
    (f4 : getCol df "cohort_size" = none) :
    ∃ sOut out, scriptDerive df = some sOut ∧
      engineer_all_features df = some out ∧
      (∀ m, m ≠ "cohort_size" → getCol sOut m = getCol out m) ∧
      getCol sOut "cohort_size" = none := by
  refine ⟨scriptOut df xs ys zs, engOut df xs ys zs ws,
    script_spec df xs ys zs h4 h6 hz hx hy hzok,
    eng_spec df xs ys zs ws h4 h6 hz hw hx hy hzok hwok, ?_, ?_⟩
  · intro m hm
    rw [getCol_scriptOut, getCol_engOut,
      if_neg (show ¬("cohort_size" = m) from fun h => hm h.symm)]
  · rw [getCol_scriptOut, if_neg (by decide), if_neg (by decide),
      if_neg (by decide)]
    exact f4

/-- Witness for C10 at dfGood. -/
theorem claim_C10_witness :
    ∃ sOut out, scriptDerive dfGood = some sOut ∧
      engineer_all_features dfGood = some out ∧
      (∀ m, m ≠ "cohort_size" → getCol sOut m = getCol out m) ∧
      getCol sOut "cohort_size" = none :=
  claim_C10 dfGood [PVal.num (2/5)] [PVal.num (3/5)] [PVal.num (1/5)]
    [PVal.num 40] (by with_unfolding_all rfl) (by with_unfolding_all rfl)
    (by with_unfolding_all rfl) (by with_unfolding_all rfl) rfl rfl rfl rfl
    (by with_unfolding_all rfl)

/-- The column names of the four steps are pairwise distinct. -/
theorem colName_inj (s1 s2 : FStep) (h : FStep.colName s1 = FStep.colName s2) :
    s1 = s2 := by
  revert h
  cases s1 <;> cases s2 <;> decide

/-- No step writes into a base column. -/
theorem colName_ne_base (s : FStep) :
    FStep.colName s ≠ "graduate_rate_4yr" ∧
    FStep.colName s ≠ "graduate_rate_6yr" ∧
    FStep.colName s ≠ "admission_rate" ∧
    FStep.colName s ≠ "application_volume" := by
  cases s <;> exact ⟨by decide, by decide, by decide, by decide⟩

/-- One derivation step behaves as a single column assignment of its raw
column, on a dataframe with well-typed base columns. -/
theorem fstep_apply_spec (s : FStep) (df : DataFrame) (xs ys zs ws : List PVal)
    (h4 : getCol df "graduate_rate_4yr" = some xs)
    (h6 : getCol df "graduate_rate_6yr" = some ys)
    (hz : getCol df "admission_rate" = some zs)
    (hw : getCol df "application_volume" = some ws)
    (hx : okCol xs = true) (hy : okCol ys = true)
    (hzok : okCol zs = true) (hwok : okCol ws = true) :
    FStep.app s df =
      some (setCol df (FStep.colName s) (FStep.rawCol s xs ys zs ws)) := by
  cases s
  · exact create_avg_spec df xs ys h4 h6 hx hy
  · exact create_imp_spec df xs ys h4 h6 hx hy
  · exact create_sel_spec df zs hz hzok
  · exact create_coh_spec df ws zs hw hz hwok hzok

/-- Running any duplicate-free list of derivation steps succeeds and behaves
as the corresponding set of column assignments: names not written keep their
original column, and each executed step yields its own raw column. -/
theorem applySteps_spec (xs ys zs ws : List PVal)
    (hx : okCol xs = true) (hy : okCol ys = true)
    (hzok : okCol zs = true) (hwok : okCol ws = true) :
    ∀ (l : List FStep), l.Nodup → ∀ (df : DataFrame),
    getCol df "graduate_rate_4yr" = some xs →
    getCol df "graduate_rate_6yr" = some ys →
    getCol df "admission_rate" = some zs →
    getCol df "application_volume" = some ws →
    ∃ d, applySteps l df = some d ∧
      (∀ m, (∀ s ∈ l, FStep.colName s ≠ m) → getCol d m = getCol df m) ∧
      (∀ s ∈ l, getCol d (FStep.colName s) =
        some (FStep.rawCol s xs ys zs ws)) := by
  intro l
  induction l with
  | nil =>
    intro _ df h4 h6 hz hw
    exact ⟨df, rfl, fun m _ => rfl, by simp⟩
  | cons s t ih =>
    intro hnd df h4 h6 hz hw
    obtain ⟨hs, hts⟩ := List.nodup_cons.mp hnd
    have happ := fstep_apply_spec s df xs ys zs ws h4 h6 hz hw hx hy hzok hwok
    obtain ⟨b1, b2, b3, b4⟩ := colName_ne_base s
    obtain ⟨d, hd, hout, hin⟩ := ih hts
      (setCol df (FStep.colName s) (FStep.rawCol s xs ys zs ws))
      (by rw [getCol_setCol_ne _ _ _ _ b1]; exact h4)
      (by rw [getCol_setCol_ne _ _ _ _ b2]; exact h6)
      (by rw [getCol_setCol_ne _ _ _ _ b3]; exact hz)
      (by rw [getCol_setCol_ne _ _ _ _ b4]; exact hw)
    refine ⟨d, ?_, ?_, ?_⟩
    · simp only [applySteps, List.foldl_cons] at hd ⊢
      rw [show (some df).bind (FStep.app s) =
          some (setCol df (FStep.colName s) (FStep.rawCol s xs ys zs ws)) by
        rw [Option.some_bind, happ]]
      exact hd
    · intro m hm
      have hm1 : FStep.colName s ≠ m := hm s (List.mem_cons_self s t)
      rw [hout m (fun s2 hs2 => hm s2 (List.mem_cons_of_mem _ hs2)),
        getCol_setCol_ne _ _ _ _ hm1]
    · intro s2 hs2
      rcases List.mem_cons.mp hs2 with h | h
      · subst h
        have hnm : ∀ s3 ∈ t, FStep.colName s3 ≠ FStep.colName s2 := by
          intro s3 h3 heq
          exact hs (by rw [← colName_inj s3 s2 heq]; exact h3)
        rw [hout _ hnm, getCol_setCol_same]
      · exact hin s2 h

/-- C8 counterexample: executing the four derivations in the permuted order
cohort, average, improvement, selectivity followed by round_features on a
valid dataset yields a different final table than engineer_all_features:
the derived columns are appended in execution order, so the column order of
the table (and of the saved file) differs. -/
theorem claim_C8_counterexample :
    (applySteps [FStep.coh, FStep.avg, FStep.imp, FStep.sel] dfGood).bind
      round_features ≠ engineer_all_features dfGood := by
  with_unfolding_all decide

/-- C8 amended: the four derivation steps are independent up to column
order: executing them in any permutation followed by round_features
succeeds and produces a table with the same value for every column name as
engineer_all_features; only the order of the appended columns can differ. -/
theorem claim_C8_amended (df : DataFrame) (xs ys zs ws : List PVal)
    (h4 : getCol df "graduate_rate_4yr" = some xs)
    (h6 : getCol df "graduate_rate_6yr" = some ys)
    (hz : getCol df "admission_rate" = some zs)
    (hw : getCol df "application_volume" = some ws)
    (hx : okCol xs = true) (hy : okCol ys = true)
    (hzok : okCol zs = true) (hwok : okCol ws = true)
    (l : List FStep) (hp : List.Perm l fixedOrder) :
    ∃ d out, (applySteps l df).bind round_features = some d ∧
      engineer_all_features df = some out ∧
      ∀ m, getCol d m = getCol out m := by
  have hnd : l.Nodup := hp.nodup_iff.mpr (by decide)
  obtain ⟨d0, hd0, hout, hin⟩ :=
    applySteps_spec xs ys zs ws hx hy hzok hwok l hnd df h4 h6 hz hw
  have hA : getCol d0 "avg_graduation_rate" = some (avgCol xs ys) :=
    hin FStep.avg (hp.mem_iff.mpr (by decide))
  have hI : getCol d0 "graduation_rate_improvement" = some (impCol xs ys) :=
    hin FStep.imp (hp.mem_iff.mpr (by decide))
  have hS : getCol d0 "selectivity_score" = some (selCol zs) :=
    hin FStep.sel (hp.mem_iff.mpr (by decide))
  have hC : getCol d0 "cohort_size" = some (cohCol ws zs) :=
    hin FStep.coh (hp.mem_iff.mpr (by decide))
  have hr := round_spec d0 (avgCol xs ys) (impCol xs ys) (selCol zs)
    (cohCol ws zs) hA hI hS hC (okCol_avgCol xs ys hx hy)
    (okCol_impCol xs ys hx hy) (okCol_selCol zs hzok)
    (okCol_cohCol ws zs hwok hzok)
  refine ⟨setCol (setCol (setCol (setCol d0
      "avg_graduation_rate" ((avgCol xs ys).map (pround 3)))
      "graduation_rate_improvement" ((impCol xs ys).map (pround 3)))
      "selectivity_score" ((selCol zs).map (pround 2)))
      "cohort_size" ((cohCol ws zs).map (pround 2)),
    engOut df xs ys zs ws,
    (by rw [hd0, Option.some_bind]; exact hr),
    eng_spec df xs ys zs ws h4 h6 hz hw hx hy hzok hwok, ?_⟩
  intro m
  rw [getCol_engOut, getCol_setCol, getCol_setCol, getCol_setCol,
    getCol_setCol]
  by_cases c1 : "cohort_size" = m
  · rw [if_pos c1, if_pos c1]
  · rw [if_neg c1, if_neg c1]
    by_cases c2 : "selectivity_score" = m
    · rw [if_pos c2, if_pos c2]
    · rw [if_neg c2, if_neg c2]
      by_cases c3 : "graduation_rate_improvement" = m
      · rw [if_pos c3, if_pos c3]
      · rw [if_neg c3, if_neg c3]
        by_cases c4 : "avg_graduation_rate" = m
        · rw [if_pos c4, if_pos c4]
        · rw [if_neg c4, if_neg c4]
          refine hout m ?_
          intro s hsl
          cases s
          · exact c4
          · exact c3
          · exact c2
          · exact c1

/-- Witness for C8 amended at dfGood with the permutation cohort, average,
improvement, selectivity. -/
theorem claim_C8_witness :
    ∃ d out,
      (applySteps [FStep.coh, FStep.avg, FStep.imp, FStep.sel] dfGood).bind
        round_features = some d ∧
      engineer_all_features dfGood = some out ∧
      ∀ m, getCol d m = getCol out m :=
  claim_C8_amended dfGood [PVal.num (2/5)] [PVal.num (3/5)] [PVal.num (1/5)]
    [PVal.num 40] (by with_unfolding_all rfl) (by with_unfolding_all rfl)
    (by with_unfolding_all rfl) (by with_unfolding_all rfl) rfl rfl rfl rfl
    [FStep.coh, FStep.avg, FStep.imp, FStep.sel] (by decide)

/-- Pointwise reading of a successful allSome over a map. -/
theorem allSome_map_get {α β : Type} (f : α → Option β) :
    ∀ (l : List α) (l2 : List β), allSome (l.map f) = some l2 →
    ∀ (i : ℕ) (x : α) (y : β), l.get? i = some x → f x = some y →
    l2.get? i = some y := by
  intro l
  induction l with
  | nil =>
    intro l2 h i x y hx hy
    simp at hx
  | cons a t ih =>
    intro l2 h i x y hx hy
    simp only [List.map_cons] at h
    cases hfa : f a with
    | none => rw [hfa] at h; simp [allSome] at h
    | some b =>
      rw [hfa] at h
      cases hrest : allSome (t.map f) with
      | none => rw [allSome, hrest] at h; simp at h
      | some tl =>
        rw [allSome, hrest] at h
        simp only [Option.map_some'] at h
        cases h
        cases i with
        | zero =>
          rw [List.get?_cons_zero] at hx
          cases hx
          rw [hfa] at hy
          cases hy
          rfl
        | succ j =>
          rw [List.get?_cons_succ] at hx
          rw [List.get?_cons_succ]
          exact ih tl hrest j x y hx hy

/-- C7 counterexample: with application_volume arriving as the text 1,234
the feature-engineering pipeline does not strip the separator: the
cohort-size multiplication hits a text cell, so the class pipeline fails
with a type error (and main aborts) instead of computing cohort_size from
the integer value 1234. -/
theorem claim_C7_counterexample :
    engineer_all_features dfText = none ∧
      runErr (main_run dfText) = some Err.typeErr := by
  refine ⟨?_, ?_⟩
  · with_unfolding_all decide
  · with_unfolding_all decide

/-- C7 amended: thousands separators in application_volume are stripped only
by the CollegeVisualizer preprocessing step, which runs on the table the
visualizer loads, after feature engineering: every text cell whose
comma-free form parses as an integer becomes that integer value, and all
other columns are untouched.  The feature-engineering pipeline itself uses
the column exactly as loaded (see the counterexample). -/
theorem claim_C7_amended (df : DataFrame) (col col2 : List PVal)
    (hcol : getCol df "application_volume" = some col)
    (hall : allSome (col.map cleanVolumeCell) = some col2) :
    preprocess_data df = some (setCol df "application_volume" col2) ∧
      (∀ (i : ℕ) (s : String) (k : ℤ), col.get? i = some (PVal.str s) →
        parseInt (stripCommas s) = some k →
        col2.get? i = some (PVal.num (k : ℚ))) ∧
      (∀ m, m ≠ "application_volume" →
        getCol (setCol df "application_volume" col2) m = getCol df m) := by
  refine ⟨?_, ?_, ?_⟩
  · simp only [preprocess_data, hcol, Option.pure_def, Option.bind_eq_bind,
      Option.some_bind, hall]
  · intro i s k hs hk
    exact allSome_map_get cleanVolumeCell col col2 hall i _ _ hs
      (by simp [cleanVolumeCell, hk])
  · intro m hm
    rw [getCol_setCol_ne _ _ _ _ (fun h => hm h.symm)]

/-- Witness for C7 amended at dfText: the text cell 1,234 becomes the
integer 1234 under the visualizer preprocessing. -/
theorem claim_C7_witness :
    preprocess_data dfText =
        some (setCol dfText "application_volume"
          [PVal.num ((1234 : ℤ) : ℚ)]) ∧
      (∀ (i : ℕ) (s : String) (k : ℤ),
        [PVal.str "1,234"].get? i = some (PVal.str s) →
        parseInt (stripCommas s) = some k →
        [PVal.num ((1234 : ℤ) : ℚ)].get? i = some (PVal.num (k : ℚ))) ∧
      (∀ m, m ≠ "application_volume" →
        getCol (setCol dfText "application_volume"
          [PVal.num ((1234 : ℤ) : ℚ)]) m = getCol dfText m) :=
  claim_C7_amended dfText [PVal.str "1,234"] [PVal.num ((1234 : ℤ) : ℚ)]
    (by with_unfolding_all rfl) (by with_unfolding_all decide)
